import Mathlib

/-
Verification of the Safe Mutation & Query Gateway of the ferbos-mini-addon
repository (ferbos_addon_query/run.py).

Shallow embedding: Python text values are modelled as lists of characters,
the sqlite collaborator and the supervisor validate/reload collaborator are
modelled by their response values, and the filesystem is modelled as an
explicit record of directories and file contents.  Each definition below is
translated from the corresponding function in run.py; definitions that model
the wording of the specification (rather than the source) say so in their
doc comment.
-/

namespace FerbosAddon

/-- Python `str` values, modelled as lists of characters. -/
abbrev Text := List Char

/-- Literal text helper: the characters of a Lean string literal. -/
def lit (s : String) : Text := s.data

/-- The ASCII whitespace characters recognised by Python's `str.strip()`. -/
def pySpace (c : Char) : Bool :=
  c = ' ' || c = '\t' || c = '\n' || c = '\x0d' || c = '\x0b' || c = '\x0c'

/-- Python `str.strip()`: drop whitespace from both ends. -/
def stripText (s : Text) : Text :=
  ((s.dropWhile pySpace).reverse.dropWhile pySpace).reverse

/-- Python `str.upper()` (ASCII case mapping). -/
def upperText (s : Text) : Text := s.map Char.toUpper

/-- Python `str.startswith(p)`. -/
def startsWith : Text → Text → Bool
  | _, [] => true
  | [], _ :: _ => false
  | c :: s, d :: p => c = d && startsWith s p

/-- Python `p in s` on strings: `p` occurs as a contiguous substring of `s`. -/
def textContains : Text → Text → Bool
  | [], p => p.isEmpty
  | c :: s, p => startsWith (c :: s) p || textContains s p

/-- Python `'\n'.join(lines)`. -/
def joinLines (lines : List Text) : Text := List.intercalate (lit "\n") lines

/-- Python `str.endswith(c)` for a single character. -/
def endsWith (s : Text) (c : Char) : Bool := s.getLast? = some c

/-- Regex `\w` (ASCII part): letters, digits and underscore. -/
def wordChar (c : Char) : Bool := c.isAlphanum || c = '_'

/-- `re.findall(kw + r'\s+(\w+)', s)`, fuelled so that the scan is a
structural recursion: every non-overlapping occurrence of the keyword followed
by at least one whitespace character and a maximal non-empty run of word
characters; the run is captured and the scan resumes after it.  Each step
consumes at least one character of the scanned text, so a fuel equal to the
text's length (supplied by reFindAll below) never runs out. -/
def reFindAllAux (kw : Text) : Nat → Text → List Text
  | 0, _ => []
  | _ + 1, [] => []
  | fuel + 1, c :: s =>
    if startsWith (c :: s) kw then
      let rest := (c :: s).drop kw.length
      let afterSp := rest.dropWhile pySpace
      if rest.takeWhile pySpace ≠ [] ∧ afterSp.takeWhile wordChar ≠ [] then
        afterSp.takeWhile wordChar :: reFindAllAux kw fuel (afterSp.dropWhile wordChar)
      else reFindAllAux kw fuel s
    else reFindAllAux kw fuel s

/-- `re.findall(kw + r'\s+(\w+)', s)` over the whole text. -/
def reFindAll (kw : Text) (s : Text) : List Text := reFindAllAux kw s.length s

/-- The query policy read from the addon configuration
(fields allow_all_queries and allowed_tables of Config). -/
structure Policy where
  allow_all_queries : Bool
  allowed_tables : List Text
deriving DecidableEq

/-- The verdict dictionary returned by validate_query_safety. -/
structure Verdict where
  allowed : Bool
  reason : Text
deriving DecidableEq

/-- The denylist of dangerous_keywords in validate_query_safety, in source
order. -/
def dangerous_keywords : List Text :=
  [lit "DROP", lit "ALTER", lit "CREATE", lit "TRUNCATE", lit "VACUUM", lit "REINDEX"]

/-- The table identifiers extracted from the upper-cased query by the three
re.findall patterns (FROM, INTO, UPDATE), concatenated in source order. -/
def extractTables (qU : Text) : List Text :=
  reFindAll (lit "FROM") qU ++ reFindAll (lit "INTO") qU ++ reFindAll (lit "UPDATE") qU

/-- validate_query_safety from run.py: SELECT statements are always allowed;
otherwise allow_all_queries must be on; then the dangerous-keyword denylist is
scanned; then, when allowed_tables is non-empty, the extracted table names
must all appear in it. -/
def validate_query_safety (cfg : Policy) (query : Text) : Verdict :=
  let qU := upperText (stripText query)
  if startsWith qU (lit "SELECT") then
    ⟨true, lit "SELECT queries are always allowed"⟩
  else if cfg.allow_all_queries = false then
    ⟨false, lit "Only SELECT queries are allowed. Enable allow_all_queries in config to allow other query types."⟩
  else
    match dangerous_keywords.find? (fun kw => textContains qU kw) with
    | some kw => ⟨false, kw ++ lit " operations are not allowed for safety"⟩
    | none =>
      if cfg.allowed_tables ≠ [] then
        match (extractTables qU).find? (fun t => !(cfg.allowed_tables.contains t)) with
        | some t => ⟨false, lit "Table " ++ t ++ lit " is not in allowed_tables list"⟩
        | none => ⟨true, lit "Query passed safety checks"⟩
      else ⟨true, lit "Query passed safety checks"⟩

/-! ### Rate limiter (decorator rate_limit in run.py)

The per-identity deque of admission timestamps is modelled as a list of
integers, oldest first; `time.time()` is the integer parameter now.  One call
of the decorated wrapper first pops every front entry with timestamp
≤ now - window, then denies (HTTP 429, handler not invoked, no append) when
the remaining count has reached max_requests, and otherwise appends now and
invokes the handler. -/

/-- One admission check of the rate_limit decorator: returns whether the
request is admitted together with the updated timestamp deque. -/
def rate_limit_step (maxRequests : Nat) (window : Int) (st : List Int) (now : Int) :
    Bool × List Int :=
  let kept := st.dropWhile (fun t => decide (t ≤ now - window))
  if kept.length < maxRequests then (true, kept ++ [now]) else (false, kept)

/-- Modelled from the spec: the admission step as worded by the claim for the
rate limiter, which evicts only the timestamps strictly older than
now - window_seconds before counting.  Compared against rate_limit_step. -/
def claim_limit_step (maxRequests : Nat) (window : Int) (st : List Int) (now : Int) :
    Bool × List Int :=
  let kept := st.dropWhile (fun t => decide (t < now - window))
  if kept.length < maxRequests then (true, kept ++ [now]) else (false, kept)

/-! ### Bridge dispatch (ws_bridge and route_bridge_method in run.py) -/

/-- The keys of method_map in route_bridge_method, in source order. -/
def bridge_methods : List Text :=
  [lit "ferbos/status", lit "ferbos/info", lit "ferbos/health", lit "ferbos/ping",
   lit "ferbos/tables", lit "ferbos/entities", lit "ferbos/states", lit "ferbos/events",
   lit "ferbos/query", lit "ferbos/schema", lit "ferbos/ws/connect", lit "ferbos/ws/status"]

/-- The observable outcome of one ws_bridge call: a 400 for a missing method,
a 401 for a rejected token, a 404 unknown-method error, or the invocation of
the handler mapped to the method. -/
inductive BridgeResult where
  | methodRequired
  | invalidToken
  | unknownMethod (m : Text)
  | handlerRun (m : Text)
deriving DecidableEq

/-- route_bridge_method: look the method up in method_map and run its handler,
or report an unknown method. -/
def route_bridge_method (m : Text) : BridgeResult :=
  if bridge_methods.contains m then .handlerRun m else .unknownMethod m

/-- The fields of the ws_bridge request payload that drive dispatch. -/
structure BridgePayload where
  method : Text
  token : Text
deriving DecidableEq

/-- ws_bridge from run.py, with the per-identity rate-limit deque threaded
through so that its (non-)use is visible: the source handler never reads or
writes rate_limit_storage, so the deque is returned unchanged on every path.
Empty method → 400; a non-empty token is compared against the configured
api_key only when both are non-empty; otherwise the method is dispatched. -/
def ws_bridge (apiKey : Text) (rl : List Int) (p : BridgePayload) :
    BridgeResult × List Int :=
  if p.method = [] then (.methodRequired, rl)
  else if p.token ≠ [] ∧ apiKey ≠ [] ∧ p.token ≠ apiKey then (.invalidToken, rl)
  else (route_bridge_method p.method, rl)

/-! ### Query executor (HomeAssistantDB.execute_query and
execute_bridge_query in run.py)

The sqlite collaborator is modelled by its response to the one statement the
call executes: either a result record (the fetched rows together with the
affected-row count and last-insert id that the cursor would expose) or a
raised error. -/

/-- A fetched row: column name to decoded text value, in column order. -/
abbrev Row := List (Text × Text)

/-- What the sqlite cursor exposes after a successful execute: the fetchall
rows, cursor.rowcount and cursor.lastrowid. -/
structure DbResult where
  rows : List Row
  rowcount : Nat
  lastrowid : Option Nat
deriving DecidableEq

/-- The database collaborator's response to the executed statement. -/
inductive DbOutcome where
  | ok (r : DbResult)
  | err (msg : Text)
deriving DecidableEq

/-- HomeAssistantDB.execute_query: returns the fetched rows; any database
error is caught inside the method, logged, and an empty list is returned. -/
def execute_query (db : DbOutcome) : List Row :=
  match db with
  | .ok r => r.rows
  | .err _ => []

/-- The response dictionary of execute_bridge_query: an error payload with a
status code, a mutation summary (affected_rows plus a message), or a SELECT
result set with its count. -/
inductive QueryReply where
  | errorReply (msg : Text) (statusCode : Nat)
  | mutationReply (affected_rows : Nat)
  | selectReply (results : List Row) (count : Nat)
deriving DecidableEq

/-- execute_bridge_query from run.py: require a query, classify it, execute
it, and shape the reply by the INSERT/UPDATE/DELETE prefix test, reporting
len(results) as affected_rows for mutations. -/
def execute_bridge_query (cfg : Policy) (query : Text) (db : DbOutcome) : QueryReply :=
  if query = [] then .errorReply (lit "Query is required") 400
  else
    let v := validate_query_safety cfg query
    if v.allowed = false then .errorReply v.reason 400
    else
      let results := execute_query db
      let qU := upperText (stripText query)
      if startsWith qU (lit "INSERT") || startsWith qU (lit "UPDATE") ||
          startsWith qU (lit "DELETE") then
        .mutationReply results.length
      else
        .selectReply results results.length

/-! ### Config mutation pipelines (ha_config_insert and
ha_config_append_lines in run.py)

The filesystem under /config is modelled as an explicit record of existing
directories and file contents, paths as lists of segments.  The supervisor
collaborator (config check and core reload) is modelled by its responses;
the backup copy and the temp-write-then-rename are modelled as atomic content
updates that succeed. -/

/-- An absolute path, as its list of segments ("/config/a.yaml" is
[config, a.yaml]). -/
abbrev PathSegs := List Text

/-- Split a path text on the slash character, keeping empty pieces (they are
ignored during resolution, as pathlib ignores them). -/
def splitSlash : Text → List Text
  | [] => [[]]
  | c :: s =>
    match splitSlash s with
    | [] => [[]]
    | seg :: rest => if c = '/' then [] :: seg :: rest else (c :: seg) :: rest

/-- Lexical resolution as performed by pathlib.Path.resolve on a non-symlink
tree: "." and empty segments vanish, ".." pops one segment (staying at the
root when already there). -/
def resolveSegs (acc : PathSegs) : List Text → PathSegs
  | [] => acc
  | s :: rest =>
    if s = [] ∨ s = lit "." then resolveSegs acc rest
    else if s = lit ".." then resolveSegs acc.dropLast rest
    else resolveSegs (acc ++ [s]) rest

/-- str(path) for a resolved absolute path. -/
def renderPath (p : PathSegs) : Text := lit "/" ++ List.intercalate (lit "/") p

/-- The filesystem state visible to the pipeline. -/
structure FS where
  dirs : List PathSegs
  files : List (PathSegs × Text)
deriving DecidableEq

/-- Content of the file at a path, when it exists. -/
def lookupFile (fs : FS) (p : PathSegs) : Option Text :=
  (fs.files.find? (fun e => decide (e.fst = p))).map (fun e => e.snd)

/-- Write (create or overwrite) the file at a path. -/
def setFile (fs : FS) (p : PathSegs) (content : Text) : FS :=
  ⟨fs.dirs, (p, content) :: fs.files.filter (fun e => decide (e.fst ≠ p))⟩

/-- Path.unlink: remove the file at a path. -/
def removeFile (fs : FS) (p : PathSegs) : FS :=
  ⟨fs.dirs, fs.files.filter (fun e => decide (e.fst ≠ p))⟩

/-- Path.mkdir(parents=True, exist_ok=True), recording the target directory. -/
def mkdirP (fs : FS) (p : PathSegs) : FS :=
  ⟨if fs.dirs.contains p then fs.dirs else p :: fs.dirs, fs.files⟩

/-- The supervisor's reply to the config/core/check call: a 200 with result
"valid", a 200 with any other result, a non-200 status, or a raised error. -/
inductive CheckReply where
  | valid
  | invalid
  | httpErr
  | exn
deriving DecidableEq

/-- The supervisor collaborator: whether SUPERVISOR_TOKEN is present, the
check reply, and whether the reload call returns 200. -/
structure Supervisor where
  hasToken : Bool
  check : CheckReply
  reloadOk : Bool
deriving DecidableEq

/-- The resolved target directory of ha_config_insert:
(/config / relative_dir).resolve(). -/
def insertTargetDir (relative_dir : Text) : PathSegs :=
  let rds := stripText relative_dir
  if startsWith rds (lit "/") then resolveSegs [] (splitSlash rds)
  else resolveSegs [lit "config"] (splitSlash rds)

/-- The resolved target file of ha_config_insert:
(target_dir / filename).resolve(). -/
def insertTargetPath (relative_dir filename : Text) : PathSegs :=
  let fns := stripText filename
  if startsWith fns (lit "/") then resolveSegs [] (splitSlash fns)
  else resolveSegs (insertTargetDir relative_dir) (splitSlash fns)

/-- The error text the pipelines build for a failed or negative validation. -/
def checkErrorText : CheckReply → Text
  | .httpErr => lit "validation request failed"
  | .exn => lit "validation error"
  | _ => lit "configuration invalid"

/-- The JSON outcome of one ha_config_insert call, together with the
filesystem it leaves behind. -/
structure InsertOutcome where
  ok : Bool
  error : Option Text
  validated : Bool
  reloaded : Bool
  fs : FS
deriving DecidableEq

/-- ha_config_insert from run.py: resolve the target directory under /config
and reject when its rendered path fails the string startswith check against
"/config"; create the directory; resolve the target file and apply the same
check; reject an existing file unless overwrite; write the content (temp file
plus atomic rename, modelled as one update); on a requested validation that
has a token and does not come back valid, remove the new file and report the
validation error; otherwise report success with the validated and reloaded
flags. -/
def ha_config_insert (fs : FS) (relative_dir filename yamlText : Text)
    (validate reload_core overwrite : Bool) (sup : Supervisor) : InsertOutcome :=
  if stripText relative_dir = [] ∨ stripText filename = [] then
    ⟨false, some (lit "relative_dir, filename and yaml are required"), false, false, fs⟩
  else
    let base : PathSegs := [lit "config"]
    let target_dir := insertTargetDir relative_dir
    if startsWith (renderPath target_dir) (renderPath base) then
      let fs1 := mkdirP fs target_dir
      let target_path := insertTargetPath relative_dir filename
      if startsWith (renderPath target_path) (renderPath base) then
        if (lookupFile fs1 target_path).isSome && !overwrite then
          ⟨false, some (lit "file already exists"), false, false, fs1⟩
        else
          let fs2 := setFile fs1 target_path yamlText
          if validate && sup.hasToken && decide (sup.check ≠ CheckReply.valid) then
            ⟨false, some (checkErrorText sup.check), false, false, removeFile fs2 target_path⟩
          else
            ⟨true, none, validate && sup.hasToken,
             reload_core && sup.hasToken && sup.reloadOk, fs2⟩
      else
        ⟨false, some (lit "filename path escapes /config"), false, false, fs1⟩
    else
      ⟨false, some (lit "relative_dir must be under /config"), false, false, fs⟩

/-- The JSON outcome of one ha_config_append_lines call, together with the
content configuration.yaml has after the call. -/
structure AppendOutcome where
  ok : Bool
  error : Option Text
  validated : Bool
  reloaded : Bool
  content : Text
deriving DecidableEq

/-- The content the append step of ha_config_append_lines leaves in
configuration.yaml: a separating newline is written exactly when the LAST
ELEMENT OF lines does not end with a newline (this is what the source tests,
although its comment says it ensures a trailing newline on the file), then
the lines joined with newlines, then a trailing newline. -/
def appended_content (prior : Text) (lines : List Text) : Text :=
  prior ++ (if endsWith (lines.getLastD []) '\n' then [] else lit "\n")
        ++ joinLines lines ++ lit "\n"

/-- ha_config_append_lines from run.py: require a non-empty lines array, copy
configuration.yaml to a timestamped backup when backup is on (the copy is
modelled as succeeding), append, and on a requested validation that has a
token and does not come back valid restore the backup (when one was taken)
and report the validation error; otherwise report success with the validated
and reloaded flags. -/
def ha_config_append_lines (prior : Text) (lines : List Text)
    (validate reload_core do_backup : Bool) (sup : Supervisor) : AppendOutcome :=
  if lines = [] then
    ⟨false, some (lit "lines must be a non-empty array of strings"), false, false, prior⟩
  else
    let written := appended_content prior lines
    if validate && sup.hasToken && decide (sup.check ≠ CheckReply.valid) then
      ⟨false, some (checkErrorText sup.check), false, false,
       if do_backup then prior else written⟩
    else
      ⟨true, none, validate && sup.hasToken,
       reload_core && sup.hasToken && sup.reloadOk, written⟩

/-! ## Claim theorems -/

/-- Claim C6: for every SQL string whose text, after stripping and upper-casing,
starts with SELECT, and for every policy, validate_query_safety returns an
allowed verdict — regardless of allow_all_queries and of allowed_tables. -/
theorem select_always_allowed (cfg : Policy) (q : Text)
    (h : startsWith (upperText (stripText q)) (lit "SELECT") = true) :
    (validate_query_safety cfg q).allowed = true := by
  simp [validate_query_safety, h]

/-- Claim C6, witness: a lower-case SELECT with leading whitespace is allowed
under the most restrictive policy. -/
theorem select_always_allowed_witness :
    startsWith (upperText (stripText (lit "  select * from states"))) (lit "SELECT") = true ∧
    (validate_query_safety ⟨false, [lit "states"]⟩ (lit "  select * from states")).allowed = true :=
  ⟨by decide,
   select_always_allowed ⟨false, [lit "states"]⟩ (lit "  select * from states") (by decide)⟩

/-- Claim C7, counterexample: a SELECT-prefixed statement whose upper-cased
text contains the denylisted keyword DROP is classified allowed even with
allow_all_queries on, because the SELECT rule fires first — so the claim as
stated (denied for every string containing a denylisted keyword) is false. -/
theorem dangerous_keyword_in_select_allowed :
    textContains (upperText (lit "SELECT DROP")) (lit "DROP") = true ∧
    (validate_query_safety ⟨true, []⟩ (lit "SELECT DROP")).allowed = true := by
  refine ⟨by decide, by decide⟩

/-- Claim C7 (amended): for every SQL string whose stripped, upper-cased text
does not start with SELECT and contains a denylisted keyword, classification
under allow_all_queries = true is denied, with the reason naming a matched
keyword. -/
theorem dangerous_keyword_denied (cfg : Policy) (q : Text)
    (hsel : startsWith (upperText (stripText q)) (lit "SELECT") = false)
    (hall : cfg.allow_all_queries = true)
    (hkw : ∃ kw ∈ dangerous_keywords, textContains (upperText (stripText q)) kw = true) :
    (validate_query_safety cfg q).allowed = false ∧
    ∃ kw ∈ dangerous_keywords,
      textContains (upperText (stripText q)) kw = true ∧
      (validate_query_safety cfg q).reason = kw ++ lit " operations are not allowed for safety" := by
  have hfind : (dangerous_keywords.find?
      (fun kw => textContains (upperText (stripText q)) kw)).isSome := by
    rw [List.find?_isSome]
    obtain ⟨kw, hmem, hc⟩ := hkw
    exact ⟨kw, hmem, hc⟩
  obtain ⟨kw, hkwEq⟩ := Option.isSome_iff_exists.mp hfind
  have hmem : kw ∈ dangerous_keywords := List.mem_of_find?_eq_some hkwEq
  have hc : textContains (upperText (stripText q)) kw = true := List.find?_some hkwEq
  refine ⟨by simp [validate_query_safety, hsel, hall, hkwEq], kw, hmem, hc, ?_⟩
  simp [validate_query_safety, hsel, hall, hkwEq]

/-- Claim C7 (amended), witness: DROP TABLE states with allow_all_queries on
is denied with a reason naming DROP. -/
theorem dangerous_keyword_denied_witness :
    (validate_query_safety ⟨true, []⟩ (lit "DROP TABLE states")).allowed = false ∧
    ∃ kw ∈ dangerous_keywords,
      textContains (upperText (stripText (lit "DROP TABLE states"))) kw = true ∧
      (validate_query_safety ⟨true, []⟩ (lit "DROP TABLE states")).reason
        = kw ++ lit " operations are not allowed for safety" :=
  dangerous_keyword_denied ⟨true, []⟩ (lit "DROP TABLE states")
    (by decide) (by decide) (by decide)

/-- Claim C8, counterexample: the source evicts entries with timestamp equal
to now - window as well (its guard is ≤, not <), so at the window boundary the
behaviour the claim describes (evict only strictly older entries, then deny at
the cap) differs from the code: with max_requests 1 and one admission at the
exact boundary, the code admits where the claim's wording denies. -/
theorem limit_eviction_boundary_differs :
    (rate_limit_step 1 60 [0] 60).1 = true ∧
    (claim_limit_step 1 60 [0] 60).1 = false := by
  refine ⟨by decide, by decide⟩

/-- For a nondecreasing list, popping entries ≤ c from the front removes
exactly the entries ≤ c. -/
theorem sorted_dropWhile_le_eq_filter (c : Int) :
    ∀ l : List Int, List.Sorted (· ≤ ·) l →
      l.dropWhile (fun t => decide (t ≤ c)) = l.filter (fun t => decide (c < t)) := by
  intro l
  induction l with
  | nil => intro _; simp
  | cons a t ih =>
    intro hs
    rw [List.sorted_cons] at hs
    by_cases h : a ≤ c
    · rw [List.dropWhile_cons_of_pos (by simpa using h),
        List.filter_cons_of_neg (by simpa using not_lt.mpr h)]
      exact ih hs.2
    · push_neg at h
      rw [List.dropWhile_cons_of_neg (by simpa using not_le.mpr h),
        List.filter_cons_of_pos (by simpa using h)]
      rw [List.filter_eq_self.mpr]
      intro x hx
      simpa using lt_of_lt_of_le h (hs.1 x hx)

/-- Claim C8 (amended): for a nondecreasing window (timestamps are appended in
call order), the admission step keeps exactly the timestamps strictly newer
than now - window_seconds — evicting the ≤-old ones — appends now and admits
exactly when the kept count is below max_requests, and otherwise denies
without appending; hence a window holding max_requests kept admissions denies
the next call, and once every timestamp has aged to ≤ now - window_seconds
admission resumes. -/
theorem rate_limit_step_spec (maxRequests : Nat) (window : Int) (st : List Int) (now : Int)
    (hs : List.Sorted (· ≤ ·) st) :
    (rate_limit_step maxRequests window st now =
      (if (st.filter (fun t => decide (now - window < t))).length < maxRequests then
        (true, st.filter (fun t => decide (now - window < t)) ++ [now])
       else (false, st.filter (fun t => decide (now - window < t))))) ∧
    (maxRequests ≤ (st.filter (fun t => decide (now - window < t))).length →
      (rate_limit_step maxRequests window st now).1 = false ∧
      (rate_limit_step maxRequests window st now).2
        = st.filter (fun t => decide (now - window < t))) ∧
    (0 < maxRequests → (∀ t ∈ st, t ≤ now - window) →
      (rate_limit_step maxRequests window st now).1 = true) := by
  have hkey := sorted_dropWhile_le_eq_filter (now - window) st hs
  refine ⟨by simp only [rate_limit_step, hkey], ?_, ?_⟩
  · intro hfull
    simp [rate_limit_step, hkey, if_neg (not_lt.mpr hfull)]
  · intro hpos hold
    have hnil : st.filter (fun t => decide (now - window < t)) = [] := by
      rw [List.filter_eq_nil_iff]
      intro x hx
      simpa using not_lt.mpr (hold x hx)
    simp only [rate_limit_step, hkey, hnil, List.length_nil, if_pos hpos]

/-- Claim C8 (amended), witness: with max_requests 2 and window 60, a sorted
window [0, 5] at now = 70 keeps nothing and admits. -/
theorem rate_limit_step_spec_witness :
    (rate_limit_step 2 60 [0, 5] 70 =
      (if (([0, 5] : List Int).filter (fun t => decide (70 - 60 < t))).length < 2 then
        (true, ([0, 5] : List Int).filter (fun t => decide (70 - 60 < t)) ++ [70])
       else (false, ([0, 5] : List Int).filter (fun t => decide (70 - 60 < t))))) ∧
    (2 ≤ (([0, 5] : List Int).filter (fun t => decide (70 - 60 < t))).length →
      (rate_limit_step 2 60 [0, 5] 70).1 = false ∧
      (rate_limit_step 2 60 [0, 5] 70).2
        = ([0, 5] : List Int).filter (fun t => decide (70 - 60 < t))) ∧
    (0 < 2 → (∀ t ∈ ([0, 5] : List Int), t ≤ 70 - 60) →
      (rate_limit_step 2 60 [0, 5] 70).1 = true) :=
  rate_limit_step_spec 2 60 [0, 5] 70 (by decide)

/-- Claim C1, counterexample: with the caller's sliding window already holding
max_requests (= 100, the default rate_limit) admissions, a dispatched
ferbos/query bridge call still invokes its handler and leaves the rate-limit
state untouched — ws_bridge performs no admission check, so the claim that
every database-touching bridge method is admission-checked first is false. -/
theorem ws_bridge_full_window_runs_handler :
    (List.replicate 100 (0 : Int)).length = 100 ∧
    ws_bridge [] (List.replicate 100 (0 : Int)) ⟨lit "ferbos/query", []⟩
      = (BridgeResult.handlerRun (lit "ferbos/query"), List.replicate 100 (0 : Int)) := by
  refine ⟨by simp, by decide⟩

/-- Claim C1 (amended): the bridge dispatch path performs no rate-limiter
check at all: every ws_bridge call returns the rate-limit window unchanged,
and whenever the method is present, the token check passes, and the method is
known, the handler is invoked — regardless of how many admissions the window
holds.  (The rate_limit decorator guards only the /external/* HTTP routes.) -/
theorem ws_bridge_no_rate_limiting (apiKey : Text) (rl : List Int) (p : BridgePayload)
    (hm : p.method ≠ [])
    (hauth : ¬(p.token ≠ [] ∧ apiKey ≠ [] ∧ p.token ≠ apiKey)) :
    (ws_bridge apiKey rl p).2 = rl ∧
    (ws_bridge apiKey rl p).1 = route_bridge_method p.method ∧
    (bridge_methods.contains p.method = true →
      (ws_bridge apiKey rl p).1 = BridgeResult.handlerRun p.method) := by
  refine ⟨by simp [ws_bridge, hm, hauth], by simp [ws_bridge, hm, hauth], fun hc => ?_⟩
  have hmem : p.method ∈ bridge_methods := by simpa using hc
  simp [ws_bridge, hm, hauth, route_bridge_method, hmem]

/-- Claim C1 (amended), witness: a ferbos/query dispatch over a window of 100
admissions runs the handler and leaves the window unchanged. -/
theorem ws_bridge_no_rate_limiting_witness :
    (ws_bridge [] (List.replicate 100 (0 : Int)) ⟨lit "ferbos/query", []⟩).2
      = List.replicate 100 (0 : Int) ∧
    (ws_bridge [] (List.replicate 100 (0 : Int)) ⟨lit "ferbos/query", []⟩).1
      = route_bridge_method (lit "ferbos/query") ∧
    (bridge_methods.contains (lit "ferbos/query") = true →
      (ws_bridge [] (List.replicate 100 (0 : Int)) ⟨lit "ferbos/query", []⟩).1
        = BridgeResult.handlerRun (lit "ferbos/query")) :=
  ws_bridge_no_rate_limiting [] (List.replicate 100 (0 : Int)) ⟨lit "ferbos/query", []⟩
    (by decide) (by decide)

/-- Claim C2, counterexample: when the database raises an error during a
SELECT, execute_query swallows it and returns an empty list, and the bridge
reports a success result with zero rows — not a structured execution-error
outcome — so the claim is false. -/
theorem db_error_reports_success :
    execute_bridge_query ⟨true, []⟩ (lit "SELECT 1") (DbOutcome.err (lit "disk I/O error"))
      = QueryReply.selectReply [] 0 := by decide

/-- Claim C2 (amended): a database error during query execution is caught
inside execute_query and swallowed: for every non-empty query that passes
safety classification, the bridge call reports success — zero affected rows
for a mutating statement, an empty result set otherwise — and no error
outcome is produced. -/
theorem db_error_swallowed (cfg : Policy) (q msg : Text)
    (hq : q ≠ [])
    (hv : (validate_query_safety cfg q).allowed = true) :
    execute_bridge_query cfg q (DbOutcome.err msg) =
      (if startsWith (upperText (stripText q)) (lit "INSERT") ||
          startsWith (upperText (stripText q)) (lit "UPDATE") ||
          startsWith (upperText (stripText q)) (lit "DELETE") then
        QueryReply.mutationReply 0
       else QueryReply.selectReply [] 0) := by
  simp [execute_bridge_query, execute_query, hq, hv]

/-- Claim C2 (amended), witness: an UPDATE during which the database errors is
reported as a successful mutation with zero affected rows. -/
theorem db_error_swallowed_witness :
    execute_bridge_query ⟨true, []⟩ (lit "UPDATE states SET state = 0")
        (DbOutcome.err (lit "database is locked")) =
      (if startsWith (upperText (stripText (lit "UPDATE states SET state = 0"))) (lit "INSERT") ||
          startsWith (upperText (stripText (lit "UPDATE states SET state = 0"))) (lit "UPDATE") ||
          startsWith (upperText (stripText (lit "UPDATE states SET state = 0"))) (lit "DELETE") then
        QueryReply.mutationReply 0
       else QueryReply.selectReply [] 0) :=
  db_error_swallowed ⟨true, []⟩ (lit "UPDATE states SET state = 0")
    (lit "database is locked") (by decide) (by decide)

/-- Claim C3, counterexample: for an INSERT for which the store reports 3
affected rows and last-insert id 7, the bridge replies affected_rows = 0 (the
length of the empty fetchall list) and carries no last-insert identifier, so
the claim is false. -/
theorem mutation_ignores_rowcount :
    execute_bridge_query ⟨true, []⟩ (lit "INSERT INTO states VALUES (1)")
        (DbOutcome.ok ⟨[], 3, some 7⟩) = QueryReply.mutationReply 0 ∧
    (DbResult.mk [] 3 (some 7)).rowcount = 3 ∧
    (DbResult.mk [] 3 (some 7)).lastrowid = some 7 := by
  refine ⟨by decide, rfl, rfl⟩

/-- Claim C3 (amended): for every INSERT/UPDATE/DELETE-prefixed statement that
passes safety classification, the bridge reply's affected_rows is the number
of rows fetched by the cursor for that statement — not the store's
affected-row count — and the reply never carries a last-inserted-row
identifier (the reply shape has no such field). -/
theorem mutation_reply_fetch_length (cfg : Policy) (q : Text) (r : DbResult)
    (hq : q ≠ [])
    (hv : (validate_query_safety cfg q).allowed = true)
    (hmut : (startsWith (upperText (stripText q)) (lit "INSERT") ||
             startsWith (upperText (stripText q)) (lit "UPDATE") ||
             startsWith (upperText (stripText q)) (lit "DELETE")) = true) :
    execute_bridge_query cfg q (DbOutcome.ok r) = QueryReply.mutationReply r.rows.length := by
  simp [execute_bridge_query, execute_query, hq, hv, hmut]

/-- Claim C3 (amended), witness: the INSERT with 3 store-affected rows and an
empty fetchall is reported with affected_rows = 0. -/
theorem mutation_reply_fetch_length_witness :
    execute_bridge_query ⟨true, []⟩ (lit "INSERT INTO states VALUES (1)")
        (DbOutcome.ok ⟨[], 3, some 7⟩)
      = QueryReply.mutationReply (DbResult.mk [] 3 (some 7)).rows.length :=
  mutation_reply_fetch_length ⟨true, []⟩ (lit "INSERT INTO states VALUES (1)")
    ⟨[], 3, some 7⟩ (by decide) (by decide) (by decide)

/-- route_bridge_method never produces the invalid-token outcome. -/
theorem route_bridge_method_ne_invalidToken (m : Text) :
    route_bridge_method m ≠ BridgeResult.invalidToken := by
  unfold route_bridge_method
  split <;> simp

/-- Claim C10: for every bridge request with a method, the API-key check
applies only when the request supplies a non-empty token — an empty token is
dispatched to route_bridge_method even when an api_key is configured — and the
invalid-token rejection happens exactly when a non-empty token is supplied,
an api_key is configured, and they differ. -/
theorem token_check_only_when_supplied (apiKey : Text) (rl : List Int) (p : BridgePayload)
    (hm : p.method ≠ []) :
    (p.token = [] → (ws_bridge apiKey rl p).1 = route_bridge_method p.method) ∧
    ((ws_bridge apiKey rl p).1 = BridgeResult.invalidToken ↔
      p.token ≠ [] ∧ apiKey ≠ [] ∧ p.token ≠ apiKey) := by
  constructor
  · intro ht
    simp [ws_bridge, hm, ht]
  · by_cases hauth : p.token ≠ [] ∧ apiKey ≠ [] ∧ p.token ≠ apiKey
    · simp [ws_bridge, hm, hauth]
    · simp only [ws_bridge, if_neg hm, if_neg hauth]
      exact iff_of_false (route_bridge_method_ne_invalidToken p.method) hauth

/-- Claim C10, witness: with an api_key configured, an empty token is
dispatched rather than rejected, and the rejection condition is not met. -/
theorem token_check_only_when_supplied_witness :
    (([] : Text) = [] → (ws_bridge (lit "k") [] ⟨lit "ferbos/status", []⟩).1
      = route_bridge_method (lit "ferbos/status")) ∧
    ((ws_bridge (lit "k") [] ⟨lit "ferbos/status", []⟩).1 = BridgeResult.invalidToken ↔
      ([] : Text) ≠ [] ∧ lit "k" ≠ [] ∧ ([] : Text) ≠ lit "k") :=
  token_check_only_when_supplied (lit "k") [] ⟨lit "ferbos/status", []⟩ (by decide)

/-- Creating a directory does not change any file content. -/
theorem lookupFile_mkdirP (fs : FS) (d p : PathSegs) :
    lookupFile (mkdirP fs d) p = lookupFile fs p := rfl

/-- After unlinking a path, no file exists at it. -/
theorem lookupFile_removeFile_self (fs : FS) (p : PathSegs) :
    lookupFile (removeFile fs p) p = none := by
  unfold lookupFile removeFile
  have hfind : (fs.files.filter (fun e => decide (e.fst ≠ p))).find?
      (fun e => decide (e.fst = p)) = none := by
    rw [List.find?_eq_none]
    intro e he
    have h2 := List.of_mem_filter he
    simp at h2 ⊢
    exact h2
  rw [hfind]
  rfl

/-- Claim C4, counterexample: an insert_file call with overwrite over an
existing file, whose validation comes back invalid, rolls back by unlinking
the target — afterwards the file is gone, not restored to its prior content,
so the byte-for-byte restoration the claim states fails for insert_file. -/
theorem insert_overwrite_rollback_loses_content :
    (ha_config_insert
        ⟨[[lit "config", lit "packages"]],
         [([lit "config", lit "packages", lit "a.yaml"], lit "old: 1\n")]⟩
        (lit "packages") (lit "a.yaml") (lit "new: 2\n") true true true
        ⟨true, CheckReply.invalid, true⟩).ok = false ∧
    lookupFile
        (⟨[[lit "config", lit "packages"]],
          [([lit "config", lit "packages", lit "a.yaml"], lit "old: 1\n")]⟩ : FS)
        [lit "config", lit "packages", lit "a.yaml"] = some (lit "old: 1\n") ∧
    lookupFile (ha_config_insert
        ⟨[[lit "config", lit "packages"]],
         [([lit "config", lit "packages", lit "a.yaml"], lit "old: 1\n")]⟩
        (lit "packages") (lit "a.yaml") (lit "new: 2\n") true true true
        ⟨true, CheckReply.invalid, true⟩).fs
        [lit "config", lit "packages", lit "a.yaml"] = none := by
  refine ⟨by decide, by decide, by decide⟩

/-- Claim C4 (amended): when the supervisor validation is requested, reachable
and does not report valid, both pipelines report the mutation as not
committed; append_lines with backup on restores configuration.yaml to its
prior content byte-for-byte, while insert_file (which takes no backup) rolls
back by removing the newly written file — restoring the prior state exactly
when the target file did not exist before the call. -/
theorem rollback_on_invalid_validation (prior : Text) (lines : List Text) (fs : FS)
    (rd fn content : Text) (sup : Supervisor)
    (hlines : lines ≠ [])
    (htok : sup.hasToken = true)
    (hbad : sup.check ≠ CheckReply.valid)
    (hrd : stripText rd ≠ []) (hfn : stripText fn ≠ [])
    (hdir : startsWith (renderPath (insertTargetDir rd)) (renderPath [lit "config"]) = true)
    (hfile : startsWith (renderPath (insertTargetPath rd fn)) (renderPath [lit "config"]) = true)
    (hnew : lookupFile fs (insertTargetPath rd fn) = none) :
    ((ha_config_append_lines prior lines true true true sup).ok = false ∧
     (ha_config_append_lines prior lines true true true sup).content = prior) ∧
    ((ha_config_insert fs rd fn content true true false sup).ok = false ∧
     lookupFile (ha_config_insert fs rd fn content true true false sup).fs
       (insertTargetPath rd fn) = none ∧
     lookupFile fs (insertTargetPath rd fn) = none) := by
  have hne : ¬(stripText rd = [] ∨ stripText fn = []) := by
    push_neg
    exact ⟨hrd, hfn⟩
  constructor
  · constructor <;> simp [ha_config_append_lines, hlines, htok, hbad]
  · refine ⟨?_, ?_, hnew⟩ <;>
      simp [ha_config_insert, hne, hdir, hfile, lookupFile_mkdirP, hnew, htok, hbad,
        lookupFile_removeFile_self]

/-- Claim C4 (amended), witness: with an invalid validation reply, appending
to "a: 1" with backup leaves the file at "a: 1" and reports not committed, and
inserting a fresh packages/b.yaml leaves no file behind. -/
theorem rollback_on_invalid_validation_witness :
    ((ha_config_append_lines (lit "a: 1") [lit "x: 2"] true true true
        ⟨true, CheckReply.invalid, true⟩).ok = false ∧
     (ha_config_append_lines (lit "a: 1") [lit "x: 2"] true true true
        ⟨true, CheckReply.invalid, true⟩).content = lit "a: 1") ∧
    ((ha_config_insert ⟨[], []⟩ (lit "packages") (lit "b.yaml") (lit "c: 3") true true false
        ⟨true, CheckReply.invalid, true⟩).ok = false ∧
     lookupFile (ha_config_insert ⟨[], []⟩ (lit "packages") (lit "b.yaml") (lit "c: 3")
        true true false ⟨true, CheckReply.invalid, true⟩).fs
       (insertTargetPath (lit "packages") (lit "b.yaml")) = none ∧
     lookupFile ⟨[], []⟩ (insertTargetPath (lit "packages") (lit "b.yaml")) = none) :=
  rollback_on_invalid_validation (lit "a: 1") [lit "x: 2"] ⟨[], []⟩
    (lit "packages") (lit "b.yaml") (lit "c: 3") ⟨true, CheckReply.invalid, true⟩
    (by decide) (by decide) (by decide) (by decide) (by decide) (by decide) (by decide)
    (by decide)

/-- Claim C5, counterexample: when relative_dir stays under /config but the
resolved filename escapes it, the request is rejected with the path-escape
error only after the target directory has been created — a filesystem write
the claim says must not happen. -/
theorem filename_escape_creates_directory :
    (ha_config_insert ⟨[], []⟩ (lit "packages") (lit "../../etc/x") (lit "y")
        true true false ⟨false, CheckReply.valid, false⟩).error
      = some (lit "filename path escapes /config") ∧
    (ha_config_insert ⟨[], []⟩ (lit "packages") (lit "../../etc/x") (lit "y")
        true true false ⟨false, CheckReply.valid, false⟩).fs.dirs
      = [[lit "config", lit "packages"]] ∧
    (FS.mk [] []).dirs = [] := by
  refine ⟨by decide, by decide, rfl⟩

/-- Claim C5 (amended): a request whose resolved target directory fails the
/config string-prefix check is rejected with a path-escape error and performs
no filesystem write at all; a request whose directory passes but whose
resolved target file fails the check is rejected with a path-escape error
after the target directory is created, and no file is written in either
case. -/
theorem path_escape_rejected (fs : FS) (rd fn content : Text)
    (validate reload_core overwrite : Bool) (sup : Supervisor)
    (hrd : stripText rd ≠ []) (hfn : stripText fn ≠ []) :
    (startsWith (renderPath (insertTargetDir rd)) (renderPath [lit "config"]) = false →
      ha_config_insert fs rd fn content validate reload_core overwrite sup =
        ⟨false, some (lit "relative_dir must be under /config"), false, false, fs⟩) ∧
    (startsWith (renderPath (insertTargetDir rd)) (renderPath [lit "config"]) = true →
     startsWith (renderPath (insertTargetPath rd fn)) (renderPath [lit "config"]) = false →
      ha_config_insert fs rd fn content validate reload_core overwrite sup =
        ⟨false, some (lit "filename path escapes /config"), false, false,
         mkdirP fs (insertTargetDir rd)⟩ ∧
      (ha_config_insert fs rd fn content validate reload_core overwrite sup).fs.files
        = fs.files) := by
  have hne : ¬(stripText rd = [] ∨ stripText fn = []) := by
    push_neg
    exact ⟨hrd, hfn⟩
  constructor
  · intro hdir
    simp [ha_config_insert, hne, hdir]
  · intro hdir hfile
    refine ⟨by simp [ha_config_insert, hne, hdir, hfile], ?_⟩
    simp [ha_config_insert, hne, hdir, hfile, mkdirP]

/-- Claim C5 (amended), witness: the spec's own scenario — relative_dir
"../../etc" resolves to /etc, fails the prefix check, and the call rejects
with no filesystem change. -/
theorem path_escape_rejected_witness :
    ha_config_insert ⟨[], []⟩ (lit "../../etc") (lit "x") (lit "y") true true false
        ⟨false, CheckReply.valid, false⟩
      = ⟨false, some (lit "relative_dir must be under /config"), false, false, ⟨[], []⟩⟩ :=
  (path_escape_rejected ⟨[], []⟩ (lit "../../etc") (lit "x") (lit "y") true true false
      ⟨false, CheckReply.valid, false⟩ (by decide) (by decide)).1 (by decide)

/-- Claim C9 (code bug): the append step decides whether to write a separating
newline by testing the last element of the NEW lines, not the prior file
content (which is what its own comment says it ensures): appending ["x: 2"]
to a file already ending in a newline yields an extra blank line, and
appending a newline-terminated line to a file without a trailing newline
merges the new content onto the prior last line. -/
theorem append_newline_guard_checks_lines :
    appended_content (lit "a: 1\n") [lit "x: 2"] = lit "a: 1\n\nx: 2\n" ∧
    appended_content (lit "a: 1") [lit "x: 2\n"] = lit "a: 1x: 2\n\n" ∧
    endsWith (lit "a: 1\n") '\n' = true ∧
    endsWith (lit "a: 1") '\n' = false := by
  refine ⟨by decide, by decide, by decide, by decide⟩

end FerbosAddon
